import Mathlib

/-!
Verification of the Bedrock multi-model invocation adapter
(`src/bedrock-app.py`) against its natural-language specification.

The adapter is embedded shallowly:

* JSON payloads (Python dicts/lists/strings/numbers built by the source)
  become the inductive `JVal`; Python numbers (ints and floats) are
  modelled as exact rationals.
* Python exceptions become the inductive `PyError`; `str(e)` becomes
  `PyError.msg`.  The exact wording of a message is a modelling choice
  (no claim depends on it); what matters is which operation fails and
  that the same message reappears wherever the source interpolates
  `str(e)`.
* Fallible Python operations (`d[k]`, `lst[0]`, `d.get(k, default)`,
  `str + value`) become `Except PyError` computations.
* The external transport (`client.invoke_model`,
  `client.invoke_model_with_response_stream`) is an oracle passed in as a
  function from the encoded request body to either a raised error or a
  parsed response / chunk stream.  A streaming chunk sequence is a list
  whose elements are either a parsed chunk or an exception raised by the
  stream mid-iteration.
* `try/except` blocks become matches on the `Except` result; a generator
  becomes the list of values it yields.
-/

/-- A parsed JSON value: the payloads the source builds with dict/list
literals and the response bodies `json.loads` produces. -/
inductive JVal where
  | str (s : String)
  | num (q : Rat)
  | arr (xs : List JVal)
  | obj (fields : List (String × JVal))

/-- The Python exceptions the adapter's code paths can raise, plus
`unsupportedModelFamily`, which is modelled from the spec: the spec's
error taxonomy names an `UnsupportedModelError` ("unsupported model
family") for an unmatched wire id, but no such exception exists anywhere
in `src/bedrock-app.py`; the constructor exists only so that statements
can compare the code's actual fault against the spec's named one. -/
inductive PyError where
  | keyError (k : String)
  | indexError
  | typeError (m : String)
  | attrError (m : String)
  | unboundLocal (n : String)
  | transport (m : String)
  | unsupportedModelFamily
deriving DecidableEq

/-- The `str(e)` rendering a caught exception gets in `"Error: {str(e)}"`
and `"Streaming Error: {str(e)}"`.  Wordings are representative. -/
def PyError.msg : PyError → String
  | .keyError k => k
  | .indexError => "list index out of range"
  | .typeError m => m
  | .attrError m => m
  | .unboundLocal n => "local variable " ++ n ++ " referenced before assignment"
  | .transport m => m
  | .unsupportedModelFamily => "unsupported model family"

/-- Lookup in the field list of a JSON object (Python dict lookup). -/
def jgetEntry : List (String × JVal) → String → Option JVal
  | [], _ => none
  | (k, v) :: rest, key => if k = key then some v else jgetEntry rest key

/-- Python `d[k]` for a string key: `KeyError` on a missing key,
`TypeError` when the value is not a dict. -/
def JVal.item (v : JVal) (k : String) : Except PyError JVal :=
  match v with
  | .obj fs =>
    match jgetEntry fs k with
    | some x => Except.ok x
    | none => Except.error (PyError.keyError k)
  | _ => Except.error (PyError.typeError "value is not subscriptable by string key")

/-- Python `d.get(k, default)`: total on dicts, `AttributeError` on
anything that is not a dict. -/
def JVal.getD (v : JVal) (k : String) (d : JVal) : Except PyError JVal :=
  match v with
  | .obj fs => Except.ok ((jgetEntry fs k).getD d)
  | _ => Except.error (PyError.attrError "object has no attribute get")

/-- Python `lst[0]`: `IndexError` on an empty list, first character of a
non-empty string, `TypeError`/`KeyError` otherwise. -/
def JVal.index0 (v : JVal) : Except PyError JVal :=
  match v with
  | .arr (x :: _) => Except.ok x
  | .arr [] => Except.error PyError.indexError
  | .str s =>
    match s.data with
    | c :: _ => Except.ok (JVal.str (String.mk [c]))
    | [] => Except.error (PyError.indexError)
  | _ => Except.error (PyError.typeError "value is not subscriptable by integer")

/-- Python `v == "lit"` for a JSON value against a string literal: true
exactly when the value is that string (no exception). -/
def jeqStr (v : JVal) (s : String) : Bool :=
  match v with
  | .str t => t = s
  | _ => false

/-- Python `acc + v` where `acc` is a `str`: `TypeError` unless `v` is a
string too; used for `full_text += ...` in the streaming loop. -/
def asStr : JVal → Except PyError String
  | .str s => Except.ok s
  | _ => Except.error (PyError.typeError "can only concatenate str to str")

/-- Python substring containment (`needle in hay` on strings). -/
def strContains (needle hay : String) : Bool :=
  hay.data.tails.any (fun t => needle.data.isPrefixOf t)

/-- The three wire-format families plus the unmatched case. -/
inductive ModelFamily where
  | chat
  | instructionTag
  | fieldNamed
  | unsupported
deriving DecidableEq

/-- The dispatch chain every branch of the source repeats: substring
tests `'anthropic.claude' in model_id`, `'meta.llama2' in model_id`,
`'amazon.titan' in model_id`, wired as an if/elif chain, first match
wins; no branch matched is the fall-through (no `else`) case. -/
def classify (model_id : String) : ModelFamily :=
  if strContains "anthropic.claude" model_id then ModelFamily.chat
  else if strContains "meta.llama2" model_id then ModelFamily.instructionTag
  else if strContains "amazon.titan" model_id then ModelFamily.fieldNamed
  else ModelFamily.unsupported

/-- Modelled from the spec: the spec's dispatch rule reads "classify
wire_id into family ... by prefix match" and the claim reads "prefix
match at the start of the string", in the same priority order.  This is
the classifier those words describe, to be compared with the source's
`classify`. -/
def specPrefixClassify (model_id : String) : ModelFamily :=
  if "anthropic.claude".data.isPrefixOf model_id.data then ModelFamily.chat
  else if "meta.llama2".data.isPrefixOf model_id.data then ModelFamily.instructionTag
  else if "amazon.titan".data.isPrefixOf model_id.data then ModelFamily.fieldNamed
  else ModelFamily.unsupported

/-- The request body built by `invoke_bedrock_model` (source lines
54-82).  The unmatched fall-through leaves the local `body` unassigned,
so the later `json.dumps(body)` raises `UnboundLocalError`; that raise
happens inside the same `try` and before the transport call, so it is
folded into the encoder here. -/
def encode (model_id prompt : String) (max_tokens : Nat) (temperature : Rat) :
    Except PyError JVal :=
  match classify model_id with
  | ModelFamily.chat => Except.ok (JVal.obj
      [("anthropic_version", JVal.str "bedrock-2023-05-31"),
       ("messages", JVal.arr
         [JVal.obj [("role", JVal.str "user"), ("content", JVal.str prompt)]]),
       ("max_tokens", JVal.num max_tokens),
       ("temperature", JVal.num temperature)])
  | ModelFamily.instructionTag => Except.ok (JVal.obj
      [("prompt", JVal.str ("<s>[INST] " ++ prompt ++ " [/INST]")),
       ("max_gen_len", JVal.num max_tokens),
       ("temperature", JVal.num temperature),
       ("top_p", JVal.num 0.9)])
  | ModelFamily.fieldNamed => Except.ok (JVal.obj
      [("inputText", JVal.str prompt),
       ("textGenerationConfig", JVal.obj
         [("maxTokenCount", JVal.num max_tokens),
          ("temperature", JVal.num temperature),
          ("topP", JVal.num 1),
          ("stopSequences", JVal.arr [])])])
  | ModelFamily.unsupported => Except.error (PyError.unboundLocal "body")

/-- The request body built by `invoke_bedrock_streaming` (source lines
128-150).  Duplicated in the source, not shared with the single-shot
path; the Titan branch there omits the `stopSequences` field. -/
def streamingEncode (model_id prompt : String) (max_tokens : Nat) (temperature : Rat) :
    Except PyError JVal :=
  match classify model_id with
  | ModelFamily.chat => Except.ok (JVal.obj
      [("anthropic_version", JVal.str "bedrock-2023-05-31"),
       ("messages", JVal.arr
         [JVal.obj [("role", JVal.str "user"), ("content", JVal.str prompt)]]),
       ("max_tokens", JVal.num max_tokens),
       ("temperature", JVal.num temperature)])
  | ModelFamily.instructionTag => Except.ok (JVal.obj
      [("prompt", JVal.str ("<s>[INST] " ++ prompt ++ " [/INST]")),
       ("max_gen_len", JVal.num max_tokens),
       ("temperature", JVal.num temperature),
       ("top_p", JVal.num 0.9)])
  | ModelFamily.fieldNamed => Except.ok (JVal.obj
      [("inputText", JVal.str prompt),
       ("textGenerationConfig", JVal.obj
         [("maxTokenCount", JVal.num max_tokens),
          ("temperature", JVal.num temperature),
          ("topP", JVal.num 1)])])
  | ModelFamily.unsupported => Except.error (PyError.unboundLocal "body")

/-- The single-shot response parsing (source lines 94-105): extracts
`(text, input_tokens, output_tokens)` from the parsed response body.
The unmatched fall-through leaves the local `text` unassigned, so the
result-building line raises `UnboundLocalError` (unreachable in the
source, since an unmatched id already failed at encode time). -/
def decodeResponse (model_id : String) (response_body : JVal) :
    Except PyError (JVal × JVal × JVal) :=
  match classify model_id with
  | ModelFamily.chat => do
      let content ← response_body.item "content"
      let c0 ← content.index0
      let text ← c0.item "text"
      let usage ← response_body.item "usage"
      let input_tokens ← usage.item "input_tokens"
      let output_tokens ← usage.item "output_tokens"
      return (text, input_tokens, output_tokens)
  | ModelFamily.instructionTag => do
      let text ← response_body.item "generation"
      let input_tokens ← response_body.getD "prompt_token_count" (JVal.num 0)
      let output_tokens ← response_body.getD "generation_token_count" (JVal.num 0)
      return (text, input_tokens, output_tokens)
  | ModelFamily.fieldNamed => do
      let results ← response_body.item "results"
      let r0 ← results.index0
      let text ← r0.item "outputText"
      let input_tokens ← response_body.item "inputTextTokenCount"
      let output_tokens ← r0.item "tokenCount"
      return (text, input_tokens, output_tokens)
  | ModelFamily.unsupported => Except.error (PyError.unboundLocal "text")

/-- The dict `invoke_bedrock_model` returns.  Field values come straight
from the parsed JSON (the source performs no type checks on them), so
`text` and the token counts are kept as `JVal`; the success path carries
no `error` key, modelled as `none`. -/
structure GenerationResult where
  text : JVal
  input_tokens : JVal
  output_tokens : JVal
  success : Bool
  error : Option String

/-- The body of `invoke_bedrock_model`'s `try` block: encode, call the
transport, parse.  The transport oracle maps the encoded body to either
a raised exception or the parsed `response_body` (reading and
`json.loads`-ing the raw bytes is folded into the oracle). -/
def invokeCore (model_id prompt : String) (max_tokens : Nat) (temperature : Rat)
    (transport : JVal → Except PyError JVal) : Except PyError GenerationResult :=
  match encode model_id prompt max_tokens temperature with
  | Except.error e => Except.error e
  | Except.ok body =>
    match transport body with
    | Except.error e => Except.error e
    | Except.ok response_body =>
      match decodeResponse model_id response_body with
      | Except.error e => Except.error e
      | Except.ok (text, input_tokens, output_tokens) =>
        Except.ok
          { text := text, input_tokens := input_tokens,
            output_tokens := output_tokens, success := true, error := none }

/-- `invoke_bedrock_model` (source lines 49-121): the `try` block's
result, with the blanket `except Exception` arm turning any raised
exception into the error-shaped result dict. -/
def invoke_bedrock_model (model_id prompt : String) (max_tokens : Nat)
    (temperature : Rat) (transport : JVal → Except PyError JVal) : GenerationResult :=
  match invokeCore model_id prompt max_tokens temperature transport with
  | Except.ok r => r
  | Except.error e =>
    { text := JVal.str ("Error: " ++ e.msg), input_tokens := JVal.num 0,
      output_tokens := JVal.num 0, success := false, error := some e.msg }

/-- One iteration's delta extraction in the streaming loop (source lines
164-170): what the matched family branch would add to `full_text` for
this parsed chunk, or the exception it raises.  The unmatched
fall-through adds nothing (unreachable in the source: an unmatched id
already failed before the loop). -/
def decodeChunk (model_id : String) (chunk : JVal) : Except PyError String :=
  match classify model_id with
  | ModelFamily.chat => do
      let ty ← chunk.item "type"
      if jeqStr ty "content_block_delta" then do
        let delta ← chunk.item "delta"
        let t ← delta.item "text"
        asStr t
      else
        return ""
  | ModelFamily.instructionTag => do
      let g ← chunk.getD "generation" (JVal.str "")
      asStr g
  | ModelFamily.fieldNamed => do
      let o ← chunk.getD "outputText" (JVal.str "")
      asStr o
  | ModelFamily.unsupported => return ""

/-- The streaming loop (source lines 160-175) over the already-started
chunk stream: each stream element is a parsed chunk or an exception the
stream raises at that point.  On each good chunk the accumulator grows
by the decoded delta and is yielded; the first exception — from the
stream or from decoding — reaches the generator's `except` arm, which
yields one `"Streaming Error: ..."` frame, ending the generator. -/
def streamLoop (model_id : String) (acc : String) :
    List (Except PyError JVal) → List String
  | [] => []
  | Except.error e :: _ => ["Streaming Error: " ++ e.msg]
  | Except.ok chunk :: rest =>
    match decodeChunk model_id chunk with
    | Except.error e => ["Streaming Error: " ++ e.msg]
    | Except.ok delta => (acc ++ delta) :: streamLoop model_id (acc ++ delta) rest

/-- `invoke_bedrock_streaming` (source lines 123-175) as the list of
frames the generator yields.  The transport oracle maps the encoded body
to either an exception raised by the streaming call itself or the chunk
stream; encode-time and call-time exceptions hit the same `except` arm
and yield a single error frame. -/
def invoke_bedrock_streaming (model_id prompt : String) (max_tokens : Nat)
    (temperature : Rat)
    (transport : JVal → Except PyError (List (Except PyError JVal))) : List String :=
  match streamingEncode model_id prompt max_tokens temperature with
  | Except.error e => ["Streaming Error: " ++ e.msg]
  | Except.ok body =>
    match transport body with
    | Except.error e => ["Streaming Error: " ++ e.msg]
    | Except.ok events => streamLoop model_id "" events

/-- One entry of the `MODELS` registry (source lines 18-47): the keys of
the per-model config dict that the adapter reads. -/
structure ModelConfig where
  id : String
  input_price_per_1k : Rat
  output_price_per_1k : Rat
  max_tokens : Nat
  description : String

/-- The `MODELS` registry (source lines 18-47). -/
def MODELS : List (String × ModelConfig) :=
  [("Claude 3 Sonnet",
    { id := "anthropic.claude-3-sonnet-20240229-v1:0",
      input_price_per_1k := 0.003, output_price_per_1k := 0.015,
      max_tokens := 4096,
      description := "Best for reasoning, analysis, creative writing" }),
   ("Claude 3 Haiku",
    { id := "anthropic.claude-3-haiku-20240307-v1:0",
      input_price_per_1k := 0.00025, output_price_per_1k := 0.00125,
      max_tokens := 4096,
      description := "Fastest and most cost-effective" }),
   ("Llama 2 70B",
    { id := "meta.llama2-70b-chat-v1",
      input_price_per_1k := 0.00195, output_price_per_1k := 0.00256,
      max_tokens := 2048,
      description := "Open-source, good for general tasks" }),
   ("Titan Text G1 - Express",
    { id := "amazon.titan-text-express-v1",
      input_price_per_1k := 0.0008, output_price_per_1k := 0.0016,
      max_tokens := 8192,
      description := "AWS native, cost-effective for basic tasks" })]

/-- `calculate_cost` (source lines 177-181); Python's true division and
float arithmetic are modelled as exact rational arithmetic. -/
def calculate_cost (input_tokens output_tokens : Nat) (model_config : ModelConfig) : Rat :=
  ((input_tokens : Rat) / 1000) * model_config.input_price_per_1k +
    ((output_tokens : Rat) / 1000) * model_config.output_price_per_1k

/-- The spec's frame-ordering relation between consecutive stream
frames: the earlier frame is no longer than the later one and is a
prefix of it (a "prefix-extension"). -/
def FrameExt (a b : String) : Prop :=
  a.length ≤ b.length ∧ a.data <+: b.data

instance (a b : String) : Decidable (FrameExt a b) := by
  unfold FrameExt; infer_instance

theorem frameExt_append (a d : String) : FrameExt a (a ++ d) := by
  constructor
  · show a.data.length ≤ (a ++ d).data.length
    rw [String.data_append]
    simp
  · rw [String.data_append]
    exact List.prefix_append a.data d.data

/-- The frames an accumulator starting at `acc` can yield: each frame is
the previous accumulator extended by some delta. -/
inductive PrefixChain : String → List String → Prop where
  | nil (acc : String) : PrefixChain acc []
  | cons (acc d : String) (rest : List String) :
      PrefixChain (acc ++ d) rest → PrefixChain acc ((acc ++ d) :: rest)

theorem prefixChain_chain : ∀ {acc : String} {fs : List String},
    PrefixChain acc fs → List.Chain' FrameExt fs := by
  intro acc fs h
  induction h with
  | nil => exact List.chain'_nil
  | cons a d rest h ih =>
    rw [List.chain'_cons']
    refine ⟨?_, ih⟩
    intro y hy
    cases h with
    | nil => simp at hy
    | cons _ d' rest' _ =>
      simp only [List.head?_cons, Option.mem_def, Option.some.injEq] at hy
      rw [← hy]
      exact frameExt_append (a ++ d) d'

theorem chain_dropLast {R : String → String → Prop} :
    ∀ {l : List String}, List.Chain' R l → List.Chain' R l.dropLast
  | [], _ => List.chain'_nil
  | [_], _ => List.chain'_nil
  | a :: b :: rest, h => by
    rw [List.chain'_cons] at h
    cases rest with
    | nil => simp
    | cons c rs =>
      have tail := chain_dropLast h.2
      rw [show (a :: b :: c :: rs).dropLast = a :: (b :: c :: rs).dropLast from rfl]
      rw [show (b :: c :: rs).dropLast = b :: (c :: rs).dropLast from rfl] at tail ⊢
      rw [List.chain'_cons]
      exact ⟨h.1, tail⟩

/-- Shape of every run of the streaming loop: a block of
accumulator-extension frames, then at most one terminal
`"Streaming Error: ..."` frame. -/
theorem streamLoop_shape (model_id : String) :
    ∀ (events : List (Except PyError JVal)) (acc : String),
    ∃ frames tail, streamLoop model_id acc events = frames ++ tail ∧
      PrefixChain acc frames ∧
      (tail = [] ∨ ∃ s, tail = ["Streaming Error: " ++ s])
  | [], acc => ⟨[], [], rfl, PrefixChain.nil acc, Or.inl rfl⟩
  | Except.error e :: _, acc =>
    ⟨[], ["Streaming Error: " ++ e.msg], rfl, PrefixChain.nil acc, Or.inr ⟨e.msg, rfl⟩⟩
  | Except.ok c :: rest, acc => by
    cases h : decodeChunk model_id c with
    | error e =>
      refine ⟨[], ["Streaming Error: " ++ e.msg], ?_, PrefixChain.nil acc, Or.inr ⟨e.msg, rfl⟩⟩
      simp [streamLoop, h]
    | ok d =>
      obtain ⟨frames, tail, hEq, hChain, hTail⟩ := streamLoop_shape model_id rest (acc ++ d)
      refine ⟨(acc ++ d) :: frames, tail, ?_, PrefixChain.cons acc d frames hChain, hTail⟩
      simp [streamLoop, h, hEq]

/-- Fault-free processing of a block of parsed chunks: the frames the
accumulator yields for them and the accumulator value afterwards, or
`none` if some chunk's decoding raises. -/
def cleanFrames (model_id : String) (acc : String) : List JVal → Option (List String × String)
  | [] => some ([], acc)
  | c :: rest =>
    match decodeChunk model_id c with
    | Except.error _ => none
    | Except.ok d =>
      (cleanFrames model_id (acc ++ d) rest).map
        (fun p => ((acc ++ d) :: p.1, p.2))

/-- Splitting a run of the loop at a fault-free block: the block's
frames come out unchanged, then the loop continues on the remaining
events from the block's final accumulator. -/
theorem streamLoop_clean_split (model_id : String) :
    ∀ (goods : List JVal) (acc acc2 : String) (frames : List String)
      (suffix : List (Except PyError JVal)),
    cleanFrames model_id acc goods = some (frames, acc2) →
    streamLoop model_id acc (goods.map Except.ok ++ suffix) =
      frames ++ streamLoop model_id acc2 suffix
  | [], acc, acc2, frames, suffix => by
    intro h
    simp only [cleanFrames, Option.some.injEq, Prod.mk.injEq] at h
    rw [← h.1, ← h.2]
    rfl
  | c :: rest, acc, acc2, frames, suffix => by
    intro h
    cases hd : decodeChunk model_id c with
    | error e => rw [cleanFrames, hd] at h; exact absurd h (by simp)
    | ok d =>
      rw [cleanFrames, hd] at h
      obtain ⟨⟨f2, a2⟩, hc, hf⟩ := Option.map_eq_some'.mp h
      simp only [Prod.mk.injEq] at hf
      have ih := streamLoop_clean_split model_id rest (acc ++ d) acc2 f2 suffix
      rw [hf.2] at hc
      have hrun := ih hc
      rw [← hf.1]
      simp only [List.map_cons, List.cons_append, streamLoop, hd]
      exact congrArg (List.cons (acc ++ d)) hrun

/-- When the dispatch chain matches, the streaming encoder produces a
payload (only the fall-through case raises). -/
theorem streamingEncode_ok (model_id prompt : String) (max_tokens : Nat)
    (temperature : Rat) (h : classify model_id ≠ ModelFamily.unsupported) :
    ∃ b, streamingEncode model_id prompt max_tokens temperature = Except.ok b := by
  unfold streamingEncode
  cases hc : classify model_id
  · exact ⟨_, rfl⟩
  · exact ⟨_, rfl⟩
  · exact ⟨_, rfl⟩
  · exact absurd hc h

/-- C1: whenever the single-shot path's `try` block — encode, transport
call, response parsing — raises any exception `e`, `invoke_bedrock_model`
does not propagate it but returns the well-formed error result: text
`"Error: <cause>"`, both token counts 0, `success = false`, and the cause
preserved in the `error` field.  (Totality toward the caller is embedded
in the return type: the function yields a `GenerationResult` for every
input, never an exception.) -/
theorem C1_single_shot_error_normalized (model_id prompt : String) (max_tokens : Nat)
    (temperature : Rat) (transport : JVal → Except PyError JVal) (e : PyError)
    (h : invokeCore model_id prompt max_tokens temperature transport = Except.error e) :
    invoke_bedrock_model model_id prompt max_tokens temperature transport =
      { text := JVal.str ("Error: " ++ e.msg), input_tokens := JVal.num 0,
        output_tokens := JVal.num 0, success := false, error := some e.msg } := by
  unfold invoke_bedrock_model
  rw [h]

/-- Witness for C1: a transport that raises a connection error on the
Claude 3 Haiku wire id yields exactly the normalized error result. -/
theorem C1_single_shot_error_normalized_witness :
    invoke_bedrock_model "anthropic.claude-3-haiku-20240307-v1:0" "Hi" 50 1
      (fun _ => Except.error (PyError.transport "connection timed out")) =
      { text := JVal.str ("Error: " ++ "connection timed out"), input_tokens := JVal.num 0,
        output_tokens := JVal.num 0, success := false,
        error := some "connection timed out" } :=
  C1_single_shot_error_normalized "anthropic.claude-3-haiku-20240307-v1:0" "Hi" 50 1
    (fun _ => Except.error (PyError.transport "connection timed out"))
    (PyError.transport "connection timed out") rfl

/-- C6: `calculate_cost` computes
`(input_tokens/1000)*input_price_per_1k + (output_tokens/1000)*output_price_per_1k`;
at the Sonnet pricing `{in: 0.003, out: 0.015}` it gives
`cost(1000, 1000) = 0.018`; `cost(0, 0, p) = 0` for every pricing `p`;
and it is linear in each token count independently. -/
theorem C6_calculate_cost_contract (i o i2 o2 : Nat) (cfg : ModelConfig) :
    calculate_cost i o cfg =
        ((i : Rat) / 1000) * cfg.input_price_per_1k +
          ((o : Rat) / 1000) * cfg.output_price_per_1k ∧
    calculate_cost 1000 1000
        { id := "anthropic.claude-3-sonnet-20240229-v1:0", input_price_per_1k := 0.003,
          output_price_per_1k := 0.015, max_tokens := 4096,
          description := "Best for reasoning, analysis, creative writing" } = 0.018 ∧
    calculate_cost 0 0 cfg = 0 ∧
    calculate_cost (i + i2) o cfg + calculate_cost 0 o cfg =
      calculate_cost i o cfg + calculate_cost i2 o cfg ∧
    calculate_cost i (o + o2) cfg + calculate_cost i 0 cfg =
      calculate_cost i o cfg + calculate_cost i o2 cfg := by
  refine ⟨rfl, by norm_num [calculate_cost], by simp [calculate_cost], ?_, ?_⟩ <;>
    · simp [calculate_cost]
      ring

/-- C7: encoding the Claude 3 Haiku scenario (prompt "Hi",
max_tokens 50, temperature 0.5) yields the Chat payload with the fixed
protocol-version constant, exactly one user-role message whose content
is the verbatim prompt, `max_tokens = 50` and `temperature = 0.5`; and
decoding the mock response
`{content: [{text: "Hello!"}], usage: {input_tokens: 2, output_tokens: 3}}`
yields `GenerationResult(text = "Hello!", input_tokens = 2,
output_tokens = 3, success = true)`. -/
theorem C7_chat_scenario :
    encode "anthropic.claude-3-haiku-20240307-v1:0" "Hi" 50 0.5 =
      Except.ok (JVal.obj
        [("anthropic_version", JVal.str "bedrock-2023-05-31"),
         ("messages", JVal.arr
           [JVal.obj [("role", JVal.str "user"), ("content", JVal.str "Hi")]]),
         ("max_tokens", JVal.num 50),
         ("temperature", JVal.num 0.5)]) ∧
    invoke_bedrock_model "anthropic.claude-3-haiku-20240307-v1:0" "Hi" 50 0.5
      (fun _ => Except.ok (JVal.obj
        [("content", JVal.arr [JVal.obj [("text", JVal.str "Hello!")]]),
         ("usage", JVal.obj [("input_tokens", JVal.num 2), ("output_tokens", JVal.num 3)])])) =
      { text := JVal.str "Hello!", input_tokens := JVal.num 2, output_tokens := JVal.num 3,
        success := true, error := none } :=
  ⟨rfl, rfl⟩

/-- C8: for every wire id the chain classifies as InstructionTag, the
payload wraps the prompt in the fixed delimiter template
`"<s>[INST] " ++ prompt ++ " [/INST]"`, carries the generation length
under `max_gen_len` (and has no `max_tokens` field), carries the given
temperature, and carries `top_p` fixed at 0.9 regardless of input. -/
theorem C8_instruction_tag_payload (model_id prompt : String) (max_tokens : Nat)
    (temperature : Rat) (h : classify model_id = ModelFamily.instructionTag) :
    ∃ fs, encode model_id prompt max_tokens temperature = Except.ok (JVal.obj fs) ∧
      jgetEntry fs "prompt" = some (JVal.str ("<s>[INST] " ++ prompt ++ " [/INST]")) ∧
      jgetEntry fs "max_tokens" = none ∧
      jgetEntry fs "max_gen_len" = some (JVal.num max_tokens) ∧
      jgetEntry fs "temperature" = some (JVal.num temperature) ∧
      jgetEntry fs "top_p" = some (JVal.num 0.9) := by
  refine ⟨[("prompt", JVal.str ("<s>[INST] " ++ prompt ++ " [/INST]")),
           ("max_gen_len", JVal.num max_tokens),
           ("temperature", JVal.num temperature),
           ("top_p", JVal.num 0.9)], ?_, rfl, rfl, rfl, rfl, rfl⟩
  simp [encode, h]

/-- Witness for C8 at the Llama 2 70B wire id with prompt "Hi",
max_tokens 50, temperature 1. -/
theorem C8_instruction_tag_payload_witness :
    ∃ fs, encode "meta.llama2-70b-chat-v1" "Hi" 50 1 = Except.ok (JVal.obj fs) ∧
      jgetEntry fs "prompt" = some (JVal.str ("<s>[INST] " ++ "Hi" ++ " [/INST]")) ∧
      jgetEntry fs "max_tokens" = none ∧
      jgetEntry fs "max_gen_len" = some (JVal.num 50) ∧
      jgetEntry fs "temperature" = some (JVal.num 1) ∧
      jgetEntry fs "top_p" = some (JVal.num 0.9) :=
  C8_instruction_tag_payload "meta.llama2-70b-chat-v1" "Hi" 50 1 (by decide)

/-- A helper for C4: a fault-free block's frames form a prefix chain
from its starting accumulator. -/
theorem cleanFrames_prefixChain (model_id : String) :
    ∀ (chunks : List JVal) (acc acc2 : String) (frames : List String),
    cleanFrames model_id acc chunks = some (frames, acc2) → PrefixChain acc frames
  | [], acc, acc2, frames => by
    intro h
    simp only [cleanFrames, Option.some.injEq, Prod.mk.injEq] at h
    rw [← h.1]
    exact PrefixChain.nil acc
  | c :: rest, acc, acc2, frames => by
    intro h
    cases hd : decodeChunk model_id c with
    | error e => rw [cleanFrames, hd] at h; exact absurd h (by simp)
    | ok d =>
      rw [cleanFrames, hd] at h
      obtain ⟨⟨f2, a2⟩, hc, hf⟩ := Option.map_eq_some'.mp h
      simp only [Prod.mk.injEq] at hf
      rw [← hf.1]
      exact PrefixChain.cons acc d f2
        (cleanFrames_prefixChain model_id rest (acc ++ d) a2 f2 hc)

/-- C10: for every model id (unrecognized ones included), every
transport behaviour and every chunk sequence (chunks with missing fields
or malformed contents included), the streaming generator is total toward
its consumer — its embedding returns a plain list of frames, never an
exception — and that list is a block of accumulator frames (each
extending the previous accumulator) followed by at most one final
`"Streaming Error: <cause>"` frame. -/
theorem C10_streaming_total_shape (model_id prompt : String) (max_tokens : Nat)
    (temperature : Rat)
    (transport : JVal → Except PyError (List (Except PyError JVal))) :
    ∃ frames tail,
      invoke_bedrock_streaming model_id prompt max_tokens temperature transport =
        frames ++ tail ∧
      PrefixChain "" frames ∧ tail.length ≤ 1 ∧
      ∀ f ∈ tail, ∃ s, f = "Streaming Error: " ++ s := by
  cases he : streamingEncode model_id prompt max_tokens temperature with
  | error e =>
    refine ⟨[], ["Streaming Error: " ++ e.msg], ?_, PrefixChain.nil "", by simp,
      by simp⟩
    simp [invoke_bedrock_streaming, he]
  | ok body =>
    cases ht : transport body with
    | error e =>
      refine ⟨[], ["Streaming Error: " ++ e.msg], ?_, PrefixChain.nil "", by simp,
        by simp⟩
      simp [invoke_bedrock_streaming, he, ht]
    | ok events =>
      obtain ⟨frames, tail, hEq, hChain, hTail⟩ := streamLoop_shape model_id events ""
      refine ⟨frames, tail, ?_, hChain, ?_, ?_⟩
      · simp [invoke_bedrock_streaming, he, ht, hEq]
      · rcases hTail with h | ⟨s, h⟩ <;> simp [h]
      · rcases hTail with h | ⟨s, h⟩
        · simp [h]
        · intro f hf
          rw [h] at hf
          simp only [List.mem_singleton] at hf
          exact ⟨s, hf⟩

/-- C5: if the transport stream raises `e` mid-iteration after a block
of chunks that decoded cleanly into `frames`, the streaming decoder
yields exactly those frames followed by one final
`"Streaming Error: <cause>"` frame and terminates — whatever events
would have followed the fault are never consumed, the already-yielded
frames are not retracted, and (by the list-valued embedding) no
exception reaches the consumer. -/
theorem C5_stream_midfault_terminal_frame (model_id prompt : String) (max_tokens : Nat)
    (temperature : Rat) (goods : List JVal) (e : PyError)
    (rest : List (Except PyError JVal)) (frames : List String) (acc2 : String)
    (h1 : classify model_id ≠ ModelFamily.unsupported)
    (h2 : cleanFrames model_id "" goods = some (frames, acc2)) :
    invoke_bedrock_streaming model_id prompt max_tokens temperature
      (fun _ => Except.ok (goods.map Except.ok ++ Except.error e :: rest)) =
      frames ++ ["Streaming Error: " ++ e.msg] := by
  obtain ⟨b, hb⟩ := streamingEncode_ok model_id prompt max_tokens temperature h1
  unfold invoke_bedrock_streaming
  rw [hb]
  show streamLoop model_id "" (goods.map Except.ok ++ Except.error e :: rest) =
    frames ++ ["Streaming Error: " ++ e.msg]
  rw [streamLoop_clean_split model_id goods "" acc2 frames (Except.error e :: rest) h2]
  rfl

/-- Witness for C5: a Llama 2 stream that yields one good chunk and then
raises keeps the yielded frame and appends one terminal error frame. -/
theorem C5_stream_midfault_terminal_frame_witness :
    invoke_bedrock_streaming "meta.llama2-70b-chat-v1" "Hi" 50 1
      (fun _ => Except.ok ([JVal.obj [("generation", JVal.str "Hel")]].map Except.ok ++
        Except.error (PyError.transport "connection reset") :: [])) =
      ["Hel"] ++ ["Streaming Error: " ++ (PyError.transport "connection reset").msg] :=
  C5_stream_midfault_terminal_frame "meta.llama2-70b-chat-v1" "Hi" 50 1
    [JVal.obj [("generation", JVal.str "Hel")]] (PyError.transport "connection reset")
    [] ["Hel"] "Hel" (by decide) rfl

/-- C4 counterexample: a Claude stream whose second chunk is malformed
(an empty object, so `chunk["type"]` raises `KeyError`) yields a first
frame of 31 characters and then the terminal error frame of 21
characters — the frame lengths decrease and the second frame is not a
prefix-extension of the first, so the ordering claim fails for this
wire id and chunk sequence. -/
theorem C4_counterexample :
    invoke_bedrock_streaming "anthropic.claude-3-haiku-20240307-v1:0" "p" 5 1
      (fun _ => Except.ok
        [Except.ok (JVal.obj
          [("type", JVal.str "content_block_delta"),
           ("delta", JVal.obj [("text", JVal.str "This is a long generated reply.")])]),
         Except.ok (JVal.obj [])]) =
      ["This is a long generated reply.", "Streaming Error: type"] ∧
    ("Streaming Error: type").length < ("This is a long generated reply.").length ∧
    ¬ FrameExt "This is a long generated reply." "Streaming Error: type" :=
  ⟨rfl, by decide, by decide⟩

/-- C4 (amended): every yielded frame other than a terminal fault frame
is a prefix-extension of the previously yielded frame (so, dropping the
last frame, the sequence is nondecreasing in length and prefix-ordered);
and on a supported wire id with a chunk sequence that decodes without a
fault, the whole yielded sequence is exactly the accumulator frames in
nondecreasing, prefix-extension order. -/
theorem C4_frames_prefix_extension (model_id prompt : String) (max_tokens : Nat)
    (temperature : Rat) :
    (∀ transport, List.Chain' FrameExt
      ((invoke_bedrock_streaming model_id prompt max_tokens temperature
        transport).dropLast)) ∧
    (∀ (chunks : List JVal) (frames : List String) (acc2 : String),
      classify model_id ≠ ModelFamily.unsupported →
      cleanFrames model_id "" chunks = some (frames, acc2) →
      invoke_bedrock_streaming model_id prompt max_tokens temperature
          (fun _ => Except.ok (chunks.map Except.ok)) = frames ∧
      List.Chain' FrameExt frames) := by
  constructor
  · intro transport
    cases he : streamingEncode model_id prompt max_tokens temperature with
    | error e => simp [invoke_bedrock_streaming, he]
    | ok body =>
      cases ht : transport body with
      | error e => simp [invoke_bedrock_streaming, he, ht]
      | ok events =>
        obtain ⟨frames, tail, hEq, hChain, hTail⟩ := streamLoop_shape model_id events ""
        have hrun : invoke_bedrock_streaming model_id prompt max_tokens temperature
            transport = frames ++ tail := by
          simp [invoke_bedrock_streaming, he, ht, hEq]
        rw [hrun]
        rcases hTail with h | ⟨s, h⟩
        · rw [h, List.append_nil]
          exact chain_dropLast (prefixChain_chain hChain)
        · rw [h, List.dropLast_concat]
          exact prefixChain_chain hChain
  · intro chunks frames acc2 h1 h2
    obtain ⟨b, hb⟩ := streamingEncode_ok model_id prompt max_tokens temperature h1
    constructor
    · have hsplit := streamLoop_clean_split model_id chunks "" acc2 frames [] h2
      rw [List.append_nil] at hsplit
      simp [invoke_bedrock_streaming, hb, hsplit, streamLoop]
    · exact prefixChain_chain (cleanFrames_prefixChain model_id chunks "" acc2 frames h2)

/-- Witness for C4 (amended): a raising transport on the Titan wire id
(first part) and a clean two-chunk Titan stream with frames
`["ab", "abcd"]` (second part). -/
theorem C4_frames_prefix_extension_witness :
    List.Chain' FrameExt
      ((invoke_bedrock_streaming "amazon.titan-text-express-v1" "q" 5 1
        (fun _ => Except.error (PyError.transport "boom"))).dropLast) ∧
    (invoke_bedrock_streaming "amazon.titan-text-express-v1" "q" 5 1
        (fun _ => Except.ok ([JVal.obj [("outputText", JVal.str "ab")],
          JVal.obj [("outputText", JVal.str "cd")]].map Except.ok)) = ["ab", "abcd"] ∧
      List.Chain' FrameExt ["ab", "abcd"]) :=
  ⟨(C4_frames_prefix_extension "amazon.titan-text-express-v1" "q" 5 1).1
      (fun _ => Except.error (PyError.transport "boom")),
   (C4_frames_prefix_extension "amazon.titan-text-express-v1" "q" 5 1).2
      [JVal.obj [("outputText", JVal.str "ab")], JVal.obj [("outputText", JVal.str "cd")]]
      ["ab", "abcd"] "abcd" (by decide) rfl⟩

/-- C3 counterexample: `"x.anthropic.claude-3"` does not start with any
family prefix, so the claim's prefix-at-start rule calls it unsupported;
the code's containment test classifies it as Chat and the encoder builds
a Chat payload for it. -/
theorem C3_counterexample :
    classify "x.anthropic.claude-3" = ModelFamily.chat ∧
    specPrefixClassify "x.anthropic.claude-3" = ModelFamily.unsupported ∧
    classify "x.anthropic.claude-3" ≠ specPrefixClassify "x.anthropic.claude-3" ∧
    encode "x.anthropic.claude-3" "p" 1 1 = Except.ok (JVal.obj
      [("anthropic_version", JVal.str "bedrock-2023-05-31"),
       ("messages", JVal.arr
         [JVal.obj [("role", JVal.str "user"), ("content", JVal.str "p")]]),
       ("max_tokens", JVal.num 1),
       ("temperature", JVal.num 1)]) :=
  ⟨by decide, by decide, by decide, rfl⟩

/-- C3 (amended): the family is decided by substring containment —
`"anthropic.claude"` is tested first, then `"meta.llama2"`, then
`"amazon.titan"`, first match winning — and a wire id containing none of
the three substrings is unsupported.  Containment anywhere in the string
counts, not only at the start. -/
theorem C3_substring_dispatch (model_id : String) :
    (classify model_id = ModelFamily.chat ↔
      strContains "anthropic.claude" model_id = true) ∧
    (classify model_id = ModelFamily.instructionTag ↔
      (strContains "anthropic.claude" model_id = false ∧
       strContains "meta.llama2" model_id = true)) ∧
    (classify model_id = ModelFamily.fieldNamed ↔
      (strContains "anthropic.claude" model_id = false ∧
       strContains "meta.llama2" model_id = false ∧
       strContains "amazon.titan" model_id = true)) ∧
    (classify model_id = ModelFamily.unsupported ↔
      (strContains "anthropic.claude" model_id = false ∧
       strContains "meta.llama2" model_id = false ∧
       strContains "amazon.titan" model_id = false)) := by
  unfold classify
  cases h1 : strContains "anthropic.claude" model_id <;>
    cases h2 : strContains "meta.llama2" model_id <;>
      cases h3 : strContains "amazon.titan" model_id <;> simp

/-- C2 counterexample: for the unmatched wire id `"foo.bar-v1"`, the
encoder, the streaming encoder and the single-shot parser all fail with
`UnboundLocalError` (the unset local `body`, resp. `text`), which is not
the spec's dedicated unsupported-model-family error — an unrelated
fault, though one still caught at the boundary. -/
theorem C2_counterexample :
    encode "foo.bar-v1" "hi" 10 1 = Except.error (PyError.unboundLocal "body") ∧
    streamingEncode "foo.bar-v1" "hi" 10 1 =
      Except.error (PyError.unboundLocal "body") ∧
    decodeResponse "foo.bar-v1" (JVal.obj []) =
      Except.error (PyError.unboundLocal "text") ∧
    PyError.unboundLocal "body" ≠ PyError.unsupportedModelFamily ∧
    PyError.unboundLocal "text" ≠ PyError.unsupportedModelFamily ∧
    (PyError.unboundLocal "body").msg ≠ PyError.unsupportedModelFamily.msg :=
  ⟨rfl, rfl, rfl, by decide, by decide, by decide⟩

/-- C2 (amended): for every wire id the chain leaves unmatched, encode
and both decoders do fail deterministically — but with the
`UnboundLocalError` of the unset local (`body` at encode time, `text` in
the single-shot parser), not with a dedicated UnsupportedModelError; the
fault is caught at the boundary, so the single-shot entry point returns
the normalized error result and the streaming entry point yields a
single `"Streaming Error: ..."` frame. -/
theorem C2_unmatched_id_unbound_local (model_id prompt : String) (max_tokens : Nat)
    (temperature : Rat) (response_body : JVal)
    (transport : JVal → Except PyError JVal)
    (streamTransport : JVal → Except PyError (List (Except PyError JVal)))
    (h : classify model_id = ModelFamily.unsupported) :
    encode model_id prompt max_tokens temperature =
      Except.error (PyError.unboundLocal "body") ∧
    streamingEncode model_id prompt max_tokens temperature =
      Except.error (PyError.unboundLocal "body") ∧
    decodeResponse model_id response_body =
      Except.error (PyError.unboundLocal "text") ∧
    invoke_bedrock_model model_id prompt max_tokens temperature transport =
      { text := JVal.str ("Error: " ++ (PyError.unboundLocal "body").msg),
        input_tokens := JVal.num 0, output_tokens := JVal.num 0, success := false,
        error := some (PyError.unboundLocal "body").msg } ∧
    invoke_bedrock_streaming model_id prompt max_tokens temperature streamTransport =
      ["Streaming Error: " ++ (PyError.unboundLocal "body").msg] := by
  refine ⟨?_, ?_, ?_, ?_, ?_⟩ <;>
    simp [encode, streamingEncode, decodeResponse, invoke_bedrock_model, invokeCore,
      invoke_bedrock_streaming, h]

/-- Witness for C2 (amended) at the unmatched wire id `"foo.bar-v1"`. -/
theorem C2_unmatched_id_unbound_local_witness :
    encode "foo.bar-v1" "Hi" 5 1 = Except.error (PyError.unboundLocal "body") ∧
    streamingEncode "foo.bar-v1" "Hi" 5 1 =
      Except.error (PyError.unboundLocal "body") ∧
    decodeResponse "foo.bar-v1" (JVal.obj []) =
      Except.error (PyError.unboundLocal "text") ∧
    invoke_bedrock_model "foo.bar-v1" "Hi" 5 1 (fun _ => Except.ok (JVal.obj [])) =
      { text := JVal.str ("Error: " ++ (PyError.unboundLocal "body").msg),
        input_tokens := JVal.num 0, output_tokens := JVal.num 0, success := false,
        error := some (PyError.unboundLocal "body").msg } ∧
    invoke_bedrock_streaming "foo.bar-v1" "Hi" 5 1 (fun _ => Except.ok []) =
      ["Streaming Error: " ++ (PyError.unboundLocal "body").msg] :=
  C2_unmatched_id_unbound_local "foo.bar-v1" "Hi" 5 1 (JVal.obj [])
    (fun _ => Except.ok (JVal.obj [])) (fun _ => Except.ok []) (by decide)

/-- The `stopSequences` entry of a payload's `textGenerationConfig`
object, when the payload has one: the field on which the two Titan
request bodies differ. -/
def stopSeqOf : Except PyError JVal → Option JVal
  | Except.ok (JVal.obj fs) =>
    match jgetEntry fs "textGenerationConfig" with
    | some (JVal.obj gs) => jgetEntry gs "stopSequences"
    | _ => none
  | _ => none

/-- C9 counterexample: on the Titan (FieldNamed) wire id the two entry
points build different payloads — the single-shot body's generation
config carries `stopSequences: []`, the streaming body's has no such
field — so the claim that both modes build the same payload (and both
carry an empty stop-sequence list) fails. -/
theorem C9_counterexample :
    stopSeqOf (encode "amazon.titan-text-express-v1" "p" 10 1) =
      some (JVal.arr []) ∧
    stopSeqOf (streamingEncode "amazon.titan-text-express-v1" "p" 10 1) = none ∧
    encode "amazon.titan-text-express-v1" "p" 10 1 ≠
      streamingEncode "amazon.titan-text-express-v1" "p" 10 1 := by
  refine ⟨rfl, rfl, ?_⟩
  intro h
  have key := congrArg stopSeqOf h
  rw [show stopSeqOf (encode "amazon.titan-text-express-v1" "p" 10 1) =
        some (JVal.arr []) from rfl,
      show stopSeqOf (streamingEncode "amazon.titan-text-express-v1" "p" 10 1) =
        none from rfl] at key
  exact Option.noConfusion key

/-- C9 (amended): for the Chat and InstructionTag families (and for
unmatched ids, where both fail alike) the two entry points build
identical request payloads; for the FieldNamed family they agree on
`inputText`, `maxTokenCount`, `temperature` and `topP = 1`, but only the
single-shot payload carries `stopSequences: []` — the streaming payload
omits it. -/
theorem C9_payload_agreement (model_id prompt : String) (max_tokens : Nat)
    (temperature : Rat) :
    (classify model_id ≠ ModelFamily.fieldNamed →
      encode model_id prompt max_tokens temperature =
        streamingEncode model_id prompt max_tokens temperature) ∧
    (classify model_id = ModelFamily.fieldNamed →
      encode model_id prompt max_tokens temperature = Except.ok (JVal.obj
        [("inputText", JVal.str prompt),
         ("textGenerationConfig", JVal.obj
           [("maxTokenCount", JVal.num max_tokens),
            ("temperature", JVal.num temperature),
            ("topP", JVal.num 1),
            ("stopSequences", JVal.arr [])])]) ∧
      streamingEncode model_id prompt max_tokens temperature = Except.ok (JVal.obj
        [("inputText", JVal.str prompt),
         ("textGenerationConfig", JVal.obj
           [("maxTokenCount", JVal.num max_tokens),
            ("temperature", JVal.num temperature),
            ("topP", JVal.num 1)])])) := by
  constructor
  · intro h
    cases hc : classify model_id
    · simp [encode, streamingEncode, hc]
    · simp [encode, streamingEncode, hc]
    · exact absurd hc h
    · simp [encode, streamingEncode, hc]
  · intro h
    exact ⟨by simp [encode, h], by simp [streamingEncode, h]⟩

/-- Witness for C9 (amended): the Claude 3 Haiku id takes the agreeing
branch; the Titan id exhibits the streaming payload without
`stopSequences`. -/
theorem C9_payload_agreement_witness :
    encode "anthropic.claude-3-haiku-20240307-v1:0" "Hi" 5 1 =
      streamingEncode "anthropic.claude-3-haiku-20240307-v1:0" "Hi" 5 1 ∧
    streamingEncode "amazon.titan-text-express-v1" "Hi" 5 1 = Except.ok (JVal.obj
      [("inputText", JVal.str "Hi"),
       ("textGenerationConfig", JVal.obj
         [("maxTokenCount", JVal.num 5),
          ("temperature", JVal.num 1),
          ("topP", JVal.num 1)])]) :=
  ⟨(C9_payload_agreement "anthropic.claude-3-haiku-20240307-v1:0" "Hi" 5 1).1
      (by decide),
   ((C9_payload_agreement "amazon.titan-text-express-v1" "Hi" 5 1).2 (by decide)).2⟩
